import Mathlib

/-!
Shallow embedding of `ServerSocket.cpp` (facebook/wdt `ServerSocket`).

The class owns two kernel descriptors (`listeningFd_` for the listening
socket, `fd_` for the currently accepted connection), a mutable `port_`,
a fixed `backlog_`, the resolved address hint `sa_`, and a non-owning
pointer `abortChecker_`.  Kernel syscalls (getaddrinfo, socket, bind,
getsockname, listen, poll, accept, close) are modelled by explicit
environment records carrying their results; the member functions become
pure functions from state and environment to result and new state.
-/

/-- Error codes returned by the socket operations (subset of wdt's
`ErrorCode` used in `ServerSocket.cpp`). -/
inductive ErrorCode where
  | OK
  | CONN_ERROR
  | CONN_ERROR_RETRYABLE
deriving DecidableEq, Repr

/-- State of one `ServerSocket` instance: the fields of the C++ class.
`sa_` (the `struct addrinfo` address hint) and `abortChecker_` (a
non-owning pointer) are opaque values identified by a `Nat`. -/
structure ServerSocketState where
  port_ : Int
  backlog_ : Int
  listeningFd_ : Int
  fd_ : Int
  sa_ : Nat
  abortChecker_ : Nat
deriving DecidableEq, Repr

/-- The constructor `ServerSocket(port, backlog, abortChecker)`: both
descriptors start at -1. -/
def ServerSocket.mk0 (port : Int) (backlog : Int) (sa : Nat)
    (abortChecker : Nat) : ServerSocketState :=
  { port_ := port, backlog_ := backlog, listeningFd_ := -1, fd_ := -1,
    sa_ := sa, abortChecker_ := abortChecker }

/-- Move constructor `ServerSocket(ServerSocket &&that)`: copies every
field into the new object, then sets the source's descriptors to -1 and
its port to -1.  Returns (new object, source after the move). -/
def ServerSocket.moveConstruct (that : ServerSocketState) :
    ServerSocketState × ServerSocketState :=
  ({ port_ := that.port_, backlog_ := that.backlog_,
     listeningFd_ := that.listeningFd_, fd_ := that.fd_, sa_ := that.sa_,
     abortChecker_ := that.abortChecker_ },
   { that with listeningFd_ := -1, fd_ := -1, port_ := -1 })

/-- Move assignment `operator=(ServerSocket &&that)`: swaps `port_`,
`sa_`, `listeningFd_`, `fd_` and `abortChecker_` between `this` and
`that` (`backlog_` is not exchanged).  Returns
(this after the move, that after the move). -/
def ServerSocket.moveAssign (self that : ServerSocketState) :
    ServerSocketState × ServerSocketState :=
  ({ self with
      port_ := that.port_, sa_ := that.sa_,
      listeningFd_ := that.listeningFd_, fd_ := that.fd_,
      abortChecker_ := that.abortChecker_ },
   { that with
      port_ := self.port_, sa_ := self.sa_,
      listeningFd_ := self.listeningFd_, fd_ := self.fd_,
      abortChecker_ := self.abortChecker_ })

/-- One candidate from the `getaddrinfo` result list, together with the
results the kernel would give for it: `info` is the opaque `addrinfo`
record, `socketRes` the return of `socket()` (a descriptor, or -1 on
failure), `bindOk` whether `bind()` returns 0, and `getsocknameRes` the
port reported by `getsockname` (`none` if that call fails). -/
structure BindCandidate where
  info : Nat
  socketRes : Int
  bindOk : Bool
  getsocknameRes : Option Nat
deriving DecidableEq, Repr

/-- Environment for `listen()`: `resolution` is `none` when
`getaddrinfo` itself fails, otherwise the candidate list in resolver
order; `listenOk` tells whether the kernel `::listen` call returns 0. -/
structure ListenEnv where
  resolution : Option (List BindCandidate)
  listenOk : Bool
deriving DecidableEq, Repr

/-- The candidate loop of `ServerSocket::listen` (lines 108-139).
Arguments are the current `port_`, `listeningFd_` and `sa_`; the result
is their values when the loop exits (by `break` or by exhausting the
list).  Mirrors the source exactly: `socket()` failure is detected by
comparison with -1; a failed `bind` closes the fd and resets it to -1;
with requested port 0 a failed `getsockname` does `continue` WITHOUT
resetting `listeningFd_`; a successful `getsockname` records the
kernel-assigned port; on success `sa_` is set to the winning candidate
and the loop breaks. -/
def bindIter : List BindCandidate → Int → Int → Nat → Int × Int × Nat
  | [], port, lfd, sa => (port, lfd, sa)
  | c :: rest, port, _, sa =>
    if c.socketRes = -1 then
      bindIter rest port c.socketRes sa
    else if ¬ c.bindOk then
      bindIter rest port (-1) sa
    else if port = 0 then
      match c.getsocknameRes with
      | none => bindIter rest port c.socketRes sa
      | some p => ((p : Int), c.socketRes, c.info)
    else
      (port, c.socketRes, c.info)

/-- The tail of `ServerSocket::listen` after the candidate loop (lines
140-151): `r` is the triple (`port_`, `listeningFd_`, `sa_`) produced
by the loop.  `listeningFd_ <= 0` yields `CONN_ERROR_RETRYABLE`; a
failing kernel `::listen` closes the descriptor, resets it to -1 and
yields `CONN_ERROR_RETRYABLE`; otherwise `OK`. -/
def listenAfterLoop (listenOk : Bool) (s : ServerSocketState)
    (r : Int × Int × Nat) : ErrorCode × ServerSocketState :=
  if r.2.1 ≤ 0 then
    (ErrorCode.CONN_ERROR_RETRYABLE,
     { s with port_ := r.1, listeningFd_ := r.2.1, sa_ := r.2.2 })
  else if ¬ listenOk then
    (ErrorCode.CONN_ERROR_RETRYABLE,
     { s with port_ := r.1, listeningFd_ := -1, sa_ := r.2.2 })
  else
    (ErrorCode.OK,
     { s with port_ := r.1, listeningFd_ := r.2.1, sa_ := r.2.2 })

/-- `ServerSocket::listen` (lines 94-152).  Returns the `ErrorCode` and
the state after the call.  If `listeningFd_ > 0` it returns `OK` at
once; a `getaddrinfo` failure yields `CONN_ERROR`; otherwise the
candidate loop runs and the outcome is classified by
`listenAfterLoop`. -/
def ServerSocket.listen (env : ListenEnv) (s : ServerSocketState) :
    ErrorCode × ServerSocketState :=
  if 0 < s.listeningFd_ then
    (ErrorCode.OK, s)
  else
    match env.resolution with
    | none => (ErrorCode.CONN_ERROR, s)
    | some candidates =>
      listenAfterLoop env.listenOk s
        (bindIter candidates s.port_ s.listeningFd_ s.sa_)

/-- One iteration of the bounded accept wait: `timeElapsed` is the
wall-clock milliseconds elapsed at the top of the loop, `retValue` the
return of `poll()`, and `intr` whether `errno == EINTR` when the
return value is checked. -/
structure PollIteration where
  timeElapsed : Int
  retValue : Int
  intr : Bool
deriving DecidableEq, Repr

/-- Outcome of the bounded wait loop in `acceptNextConnection`. -/
inductive LoopOutcome where
  | timedOut
  | pollError
  | ready
deriving DecidableEq, Repr

/-- The `while (true)` wait loop of `ServerSocket::acceptNextConnection`
(lines 163-190), consuming one `PollIteration` per pass.  If the
elapsed time reaches the budget the loop exits with `timedOut`; a
`poll` return value of at most 0 with `errno == EINTR` retries the
loop; any other non-positive return exits with `pollError`; a positive
return breaks out with `ready`.  Returns `none` when the supplied trace
has fewer events than the loop consumes. -/
def acceptLoop (timeoutMillis : Int) :
    List PollIteration → Option LoopOutcome
  | [] => none
  | it :: rest =>
    if timeoutMillis ≤ it.timeElapsed then
      some LoopOutcome.timedOut
    else if it.retValue ≤ 0 then
      if it.intr then acceptLoop timeoutMillis rest
      else some LoopOutcome.pollError
    else
      some LoopOutcome.ready

/-- Environment for `acceptNextConnection`: the environment of the
inner `listen()` call, the trace of poll iterations, and the return
value of the `accept()` syscall (a new descriptor, or negative on
failure). -/
structure AcceptEnv where
  listenEnv : ListenEnv
  polls : List PollIteration
  acceptRes : Int
deriving DecidableEq, Repr

/-- The accept syscall step (lines 193-204): `fd_` is assigned the
return value of `accept()` before it is checked; a negative value
yields `CONN_ERROR`, otherwise timeouts are configured on the new
descriptor and `OK` is returned. -/
def ServerSocket.doAccept (env : AcceptEnv) (s : ServerSocketState) :
    ErrorCode × ServerSocketState :=
  let s2 := { s with fd_ := env.acceptRes }
  if env.acceptRes < 0 then (ErrorCode.CONN_ERROR, s2)
  else (ErrorCode.OK, s2)

/-- `ServerSocket::acceptNextConnection(timeoutMillis)` (lines
154-205).  First calls `listen()`, propagating its error; with a
positive timeout it runs the bounded wait loop (timeout or poll error
give `CONN_ERROR` with the state unchanged), with a non-positive
timeout it skips the wait; then performs the accept step.  `none`
means the poll trace in the environment was too short to decide the
loop. -/
def ServerSocket.acceptNextConnection (env : AcceptEnv)
    (timeoutMillis : Int) (s : ServerSocketState) :
    Option (ErrorCode × ServerSocketState) :=
  match ServerSocket.listen env.listenEnv s with
  | (code, s1) =>
    if code ≠ ErrorCode.OK then some (code, s1)
    else if 0 < timeoutMillis then
      match acceptLoop timeoutMillis env.polls with
      | none => none
      | some LoopOutcome.timedOut => some (ErrorCode.CONN_ERROR, s1)
      | some LoopOutcome.pollError => some (ErrorCode.CONN_ERROR, s1)
      | some LoopOutcome.ready => some (ServerSocket.doAccept env s1)
    else
      some (ServerSocket.doAccept env s1)

/-- `ServerSocket::read` (lines 207-210): forwards `fd_`, the buffer,
the length, the abort checker and the `tryFull` flag to
`SocketUtils::readWithAbortCheck` and returns its result.  The
collaborator is an arbitrary function argument; the buffer pointer is
an opaque `Nat`.  The state is returned to express that no field is
mutated. -/
def ServerSocket.read (impl : Int → Nat → Int → Nat → Bool → Int)
    (buf : Nat) (nbyte : Int) (tryFull : Bool) (s : ServerSocketState) :
    Int × ServerSocketState :=
  (impl s.fd_ buf nbyte s.abortChecker_ tryFull, s)

/-- `ServerSocket::write` (lines 212-215): forwards `fd_`, the buffer,
the length, the abort checker and the `tryFull` flag to
`SocketUtils::writeWithAbortCheck` and returns its result. -/
def ServerSocket.write (impl : Int → Nat → Int → Nat → Bool → Int)
    (buf : Nat) (nbyte : Int) (tryFull : Bool) (s : ServerSocketState) :
    Int × ServerSocketState :=
  (impl s.fd_ buf nbyte s.abortChecker_ tryFull, s)

/-- `ServerSocket::closeCurrentConnection` (lines 217-224): if
`fd_ >= 0` it closes it (the `closeRes` argument is the return value of
the `::close` syscall) and resets `fd_` to -1; otherwise it returns 0
and changes nothing. -/
def ServerSocket.closeCurrentConnection (closeRes : Int)
    (s : ServerSocketState) : Int × ServerSocketState :=
  if 0 ≤ s.fd_ then (closeRes, { s with fd_ := -1 })
  else (0, s)

/-- `ServerSocket::closeAll` (lines 68-88): closes `fd_` if it is >= 0
and resets it to -1, then closes `listeningFd_` if it is >= 0 and
resets it to -1.  Failures of the `::close` syscall are only logged, so
the function returns no error; the list of descriptors actually passed
to `::close` is returned alongside the new state so that "closes
nothing" is expressible. -/
def ServerSocket.closeAll (s : ServerSocketState) :
    ServerSocketState × List Int :=
  let p1 : ServerSocketState × List Int :=
    if 0 ≤ s.fd_ then ({ s with fd_ := -1 }, [s.fd_]) else (s, [])
  let p2 : ServerSocketState × List Int :=
    if 0 ≤ p1.1.listeningFd_ then
      ({ p1.1 with listeningFd_ := -1 }, [p1.1.listeningFd_])
    else (p1.1, [])
  (p2.1, p1.2 ++ p2.2)

/-- Accessor `ServerSocket::getPort` (lines 233-235). -/
def ServerSocket.getPort (s : ServerSocketState) : Int := s.port_

/-- Accessor `ServerSocket::getListenFd` (lines 226-228). -/
def ServerSocket.getListenFd (s : ServerSocketState) : Int :=
  s.listeningFd_

/-- Accessor `ServerSocket::getFd` (lines 229-232). -/
def ServerSocket.getFd (s : ServerSocketState) : Int := s.fd_

/-- Accessor `ServerSocket::getBackLog` (lines 236-238). -/
def ServerSocket.getBackLog (s : ServerSocketState) : Int := s.backlog_

/-! ### Helper lemmas -/

/-- Whenever `listen` returns `OK`, the resulting state has a strictly
positive listening descriptor (either the early-return branch saw one,
or the success branch checked `listeningFd_ <= 0` and took its
negation). -/
theorem listen_ok_lfd_pos (env : ListenEnv) (s : ServerSocketState)
    (h : (ServerSocket.listen env s).1 = ErrorCode.OK) :
    0 < (ServerSocket.listen env s).2.listeningFd_ := by
  unfold ServerSocket.listen at h ⊢
  by_cases hpos : 0 < s.listeningFd_
  · simp [hpos]
  · simp only [hpos, if_false]
    simp only [hpos, if_false] at h
    cases hres : env.resolution with
    | none => simp [hres] at h
    | some cands =>
      simp only [hres] at h ⊢
      unfold listenAfterLoop at h ⊢
      by_cases hle : (bindIter cands s.port_ s.listeningFd_ s.sa_).2.1 ≤ 0
      · simp [hle] at h
      · by_cases hok : env.listenOk
        · simpa [hle, hok] using not_le.mp hle
        · simp [hle, hok] at h

/-- If the listening descriptor is already strictly positive, `listen`
returns `OK` and leaves the state untouched. -/
theorem listen_already_listening (env : ListenEnv) (s : ServerSocketState)
    (h : 0 < s.listeningFd_) :
    ServerSocket.listen env s = (ErrorCode.OK, s) := by
  unfold ServerSocket.listen
  simp [h]

/-! ### Claim C1: move semantics -/

/-- A concrete pre-move target state (the assigned-to object B). -/
def moveTargetB : ServerSocketState :=
  { port_ := 9000, backlog_ := 10, listeningFd_ := 3, fd_ := 4, sa_ := 1,
    abortChecker_ := 0 }

/-- A concrete pre-move source state (the moved-from object A). -/
def moveSourceA : ServerSocketState :=
  { port_ := 8000, backlog_ := 10, listeningFd_ := 5, fd_ := 6, sa_ := 2,
    abortChecker_ := 0 }

/-- Claim C1 is false as stated: after the move assignment
`B = move(A)` with B previously holding descriptors 3 and 4 on port
9000, the source A is left holding descriptors 3 and 4 and port 9000 —
not -1, -1 and an invalid sentinel — because `operator=` swaps the two
states instead of invalidating the source. -/
theorem C1_counterexample :
    ¬ ((ServerSocket.moveAssign moveTargetB moveSourceA).2.listeningFd_
         = -1 ∧
       (ServerSocket.moveAssign moveTargetB moveSourceA).2.fd_ = -1 ∧
       (ServerSocket.moveAssign moveTargetB moveSourceA).2.port_ = -1) := by
  decide

/-- Claim C1 (amended): the move constructor transfers all fields and
leaves its source with both descriptors at -1 and port -1; move
assignment instead exchanges `port_`, `sa_`, both descriptors and the
abort checker between the two objects (keeping each `backlog_`), so the
moved-from object ends up with the target's previous descriptors and
port rather than invalid sentinels. -/
theorem C1_amended_move_semantics (a b : ServerSocketState) :
    ((ServerSocket.moveConstruct a).2.listeningFd_ = -1 ∧
     (ServerSocket.moveConstruct a).2.fd_ = -1 ∧
     (ServerSocket.moveConstruct a).2.port_ = -1 ∧
     (ServerSocket.moveConstruct a).1.listeningFd_ = a.listeningFd_ ∧
     (ServerSocket.moveConstruct a).1.fd_ = a.fd_ ∧
     (ServerSocket.moveConstruct a).1.port_ = a.port_) ∧
    ((ServerSocket.moveAssign b a).1.listeningFd_ = a.listeningFd_ ∧
     (ServerSocket.moveAssign b a).1.fd_ = a.fd_ ∧
     (ServerSocket.moveAssign b a).1.port_ = a.port_ ∧
     (ServerSocket.moveAssign b a).2.listeningFd_ = b.listeningFd_ ∧
     (ServerSocket.moveAssign b a).2.fd_ = b.fd_ ∧
     (ServerSocket.moveAssign b a).2.port_ = b.port_ ∧
     (ServerSocket.moveAssign b a).2.backlog_ = a.backlog_) :=
  ⟨⟨rfl, rfl, rfl, rfl, rfl, rfl⟩, rfl, rfl, rfl, rfl, rfl, rfl, rfl⟩

/-! ### Claim C2: idempotence of listen -/

/-- A state whose listening descriptor is exactly 0: bound in the
spec's sense (`listeningDescriptor >= 0`). -/
def listenFdZeroSock : ServerSocketState :=
  { port_ := 8000, backlog_ := 10, listeningFd_ := 0, fd_ := -1, sa_ := 0,
    abortChecker_ := 0 }

/-- An environment in which address resolution fails. -/
def resolutionFailEnv : ListenEnv := { resolution := none, listenOk := true }

/-- Claim C2 is false as stated: with `listeningFd_ = 0` the endpoint is
bound in the spec's sense (`listeningDescriptor >= 0`), yet `listen`
does not return `OK` immediately — the guard in the code is
`listeningFd_ > 0`, so the call re-enters address resolution (which
here fails, producing `CONN_ERROR`). -/
theorem C2_counterexample :
    0 ≤ listenFdZeroSock.listeningFd_ ∧
    ServerSocket.listen resolutionFailEnv listenFdZeroSock =
      (ErrorCode.CONN_ERROR, listenFdZeroSock) := by
  decide

/-- Claim C2 (amended): for every state with `listeningFd_ > 0` (the
code's guard, not the spec's `>= 0`), `listen` returns `OK` at once and
changes nothing; and since every `OK` return of `listen` establishes
`listeningFd_ > 0`, a second `listen` after a successful one returns
`OK` and leaves the state unchanged, under any environment. -/
theorem C2_amended_idempotent :
    (∀ (env : ListenEnv) (s : ServerSocketState), 0 < s.listeningFd_ →
        ServerSocket.listen env s = (ErrorCode.OK, s)) ∧
    (∀ (env env2 : ListenEnv) (s : ServerSocketState),
        (ServerSocket.listen env s).1 = ErrorCode.OK →
        ServerSocket.listen env2 (ServerSocket.listen env s).2 =
          (ErrorCode.OK, (ServerSocket.listen env s).2)) := by
  constructor
  · intro env s h
    exact listen_already_listening env s h
  · intro env env2 s h
    exact listen_already_listening env2 _ (listen_ok_lfd_pos env s h)

/-- Witness for the amended claim C2: a concrete bound state with
listening descriptor 3 on which `listen` is a no-op returning `OK`. -/
theorem C2_amended_witness :
    ServerSocket.listen resolutionFailEnv
      { port_ := 8000, backlog_ := 10, listeningFd_ := 3, fd_ := -1,
        sa_ := 0, abortChecker_ := 0 } =
      (ErrorCode.OK,
       { port_ := 8000, backlog_ := 10, listeningFd_ := 3, fd_ := -1,
         sa_ := 0, abortChecker_ := 0 }) :=
  C2_amended_idempotent.1 resolutionFailEnv
    { port_ := 8000, backlog_ := 10, listeningFd_ := 3, fd_ := -1,
      sa_ := 0, abortChecker_ := 0 } (by decide)

/-! ### Claim C3: ephemeral port discovery -/

/-- An ephemeral-port request: a socket constructed with port 0. -/
def ephemeralSock : ServerSocketState := ServerSocket.mk0 0 10 0 0

/-- An environment with a single resolved candidate whose bind succeeds
on descriptor 5 but whose `getsockname` call fails, and a succeeding
kernel `::listen`. -/
def getsocknameFailEnv : ListenEnv :=
  { resolution :=
      some [BindCandidate.mk 4 5 true none],
    listenOk := true }

/-- Claim C3 fails on the code: when the requested port is 0, bind
succeeds, and `getsockname` then fails, the loop does `continue`
without resetting `listeningFd_`; with no further candidate the loop
exits still holding the bound descriptor, the kernel listen succeeds,
and `listen()` returns `OK` while the port accessor still reports 0 —
contradicting "whenever listen() returns OK the recorded port is
strictly greater than 0". -/
theorem C3_getsockname_failure_eval :
    (ServerSocket.listen getsocknameFailEnv ephemeralSock).1 =
      ErrorCode.OK ∧
    ServerSocket.getPort
      (ServerSocket.listen getsocknameFailEnv ephemeralSock).2 = 0 := by
  decide

/-! ### Claims C4 and C5: listen error classification -/

/-- If the candidate loop starts with a non-positive listening
descriptor and every candidate fails socket creation (`socket()`
returned -1) or bind, the loop ends with a non-positive listening
descriptor. -/
theorem bindIter_all_fail :
    ∀ (cands : List BindCandidate) (port lfd : Int) (sa : Nat),
      lfd ≤ 0 →
      (∀ c ∈ cands, c.socketRes = -1 ∨ c.bindOk = false) →
      (bindIter cands port lfd sa).2.1 ≤ 0
  | [], port, lfd, sa, hlfd, _ => by simpa [bindIter] using hlfd
  | c :: rest, port, lfd, sa, hlfd, hall => by
    have hrest : ∀ x ∈ rest, x.socketRes = -1 ∨ x.bindOk = false :=
      fun x hx => hall x (List.mem_cons_of_mem c hx)
    rcases hall c (List.mem_cons_self c rest) with h | h
    · simpa [bindIter, h] using
        bindIter_all_fail rest port (-1) sa (by norm_num) hrest
    · by_cases hs : c.socketRes = -1
      · simpa [bindIter, hs] using
          bindIter_all_fail rest port (-1) sa (by norm_num) hrest
      · simpa [bindIter, hs, h] using
          bindIter_all_fail rest port (-1) sa (by norm_num) hrest

/-- Claim C4: for a not-yet-listening endpoint, a failure of address
resolution makes `listen` return `CONN_ERROR` (the non-retryable
connection error) with the state unchanged, and successful resolution
in which every candidate fails socket creation or bind makes `listen`
return `CONN_ERROR_RETRYABLE` (the retryable connection error). -/
theorem C4_bind_failure_classification (env : ListenEnv)
    (s : ServerSocketState) (hnot : ¬ 0 < s.listeningFd_) :
    (env.resolution = none →
      ServerSocket.listen env s = (ErrorCode.CONN_ERROR, s)) ∧
    (∀ cands, env.resolution = some cands →
      (∀ c ∈ cands, c.socketRes = -1 ∨ c.bindOk = false) →
      (ServerSocket.listen env s).1 = ErrorCode.CONN_ERROR_RETRYABLE) := by
  constructor
  · intro h
    unfold ServerSocket.listen
    simp [hnot, h]
  · intro cands hres hall
    have hle : (bindIter cands s.port_ s.listeningFd_ s.sa_).2.1 ≤ 0 :=
      bindIter_all_fail cands s.port_ s.listeningFd_ s.sa_
        (not_lt.mp hnot) hall
    unfold ServerSocket.listen
    simp [hnot, hres, listenAfterLoop, hle]

/-- Witness for claim C4: a fresh socket on port 5000; with failing
resolution `listen` returns `CONN_ERROR` unchanged, and with one
candidate whose `socket()` call fails it returns
`CONN_ERROR_RETRYABLE`. -/
theorem C4_witness :
    ServerSocket.listen { resolution := none, listenOk := true }
        (ServerSocket.mk0 5000 10 0 0) =
      (ErrorCode.CONN_ERROR, ServerSocket.mk0 5000 10 0 0) ∧
    (ServerSocket.listen
        { resolution := some [BindCandidate.mk 4 (-1) true none],
          listenOk := true }
        (ServerSocket.mk0 5000 10 0 0)).1 =
      ErrorCode.CONN_ERROR_RETRYABLE :=
  ⟨(C4_bind_failure_classification
      { resolution := none, listenOk := true }
      (ServerSocket.mk0 5000 10 0 0) (by decide)).1 rfl,
   (C4_bind_failure_classification
      { resolution := some [BindCandidate.mk 4 (-1) true none],
        listenOk := true }
      (ServerSocket.mk0 5000 10 0 0) (by decide)).2
     [BindCandidate.mk 4 (-1) true none] rfl (by decide)⟩

/-- Claim C5: when address resolution succeeds, the candidate loop ends
with a successfully bound descriptor (strictly positive), and the
kernel `::listen` call fails, `listen` returns `CONN_ERROR_RETRYABLE`
and the listening descriptor in the resulting state is -1 (closed and
reset), i.e. the endpoint is back in the not-yet-bound state. -/
theorem C5_listen_syscall_failure (env : ListenEnv)
    (s : ServerSocketState) (cands : List BindCandidate)
    (hnot : ¬ 0 < s.listeningFd_)
    (hres : env.resolution = some cands)
    (hbound : 0 < (bindIter cands s.port_ s.listeningFd_ s.sa_).2.1)
    (hfail : env.listenOk = false) :
    (ServerSocket.listen env s).1 = ErrorCode.CONN_ERROR_RETRYABLE ∧
    (ServerSocket.listen env s).2.listeningFd_ = -1 := by
  unfold ServerSocket.listen
  simp [hnot, hres, listenAfterLoop, not_le.mpr hbound, hfail]

/-- Witness for claim C5: one candidate binds successfully on
descriptor 3, the kernel listen call fails, and the call returns
`CONN_ERROR_RETRYABLE` with the listening descriptor reset to -1. -/
theorem C5_witness :
    (ServerSocket.listen
        { resolution := some [BindCandidate.mk 4 3 true none],
          listenOk := false }
        (ServerSocket.mk0 5000 10 0 0)).1 =
      ErrorCode.CONN_ERROR_RETRYABLE ∧
    (ServerSocket.listen
        { resolution := some [BindCandidate.mk 4 3 true none],
          listenOk := false }
        (ServerSocket.mk0 5000 10 0 0)).2.listeningFd_ = -1 :=
  C5_listen_syscall_failure
    { resolution := some [BindCandidate.mk 4 3 true none],
      listenOk := false }
    (ServerSocket.mk0 5000 10 0 0) [BindCandidate.mk 4 3 true none]
    (by decide) rfl (by decide) rfl

/-! ### Claims C6 and C7: the bounded accept wait -/

/-- One wait iteration whose `poll` returned non-positively with
`errno == EINTR`, while the budget is not exhausted, makes the loop
recurse on the remaining trace: the interruption is consumed without
producing an outcome. -/
theorem acceptLoop_eintr (t : Int) (it : PollIteration)
    (rest : List PollIteration) (helapsed : it.timeElapsed < t)
    (hret : it.retValue ≤ 0) (hintr : it.intr = true) :
    acceptLoop t (it :: rest) = acceptLoop t rest := by
  simp [acceptLoop, not_le.mpr helapsed, hret, hintr]

/-- Claim C6: during `acceptNextConnection` with positive timeout, a
wait iteration interrupted by a signal (`poll` returns non-positively
with `errno == EINTR`) whose elapsed time has not yet exhausted the
budget is not an error: the whole call behaves exactly as if that
iteration had not happened, retrying the wait on the rest of the
trace with the recomputed remaining budget. -/
theorem C6_eintr_retry (env : AcceptEnv) (t : Int)
    (s : ServerSocketState) (it : PollIteration) (ht : 0 < t)
    (helapsed : it.timeElapsed < t) (hret : it.retValue ≤ 0)
    (hintr : it.intr = true) :
    ServerSocket.acceptNextConnection
        { env with polls := it :: env.polls } t s =
      ServerSocket.acceptNextConnection env t s := by
  have hloop : acceptLoop t (it :: env.polls) = acceptLoop t env.polls :=
    acceptLoop_eintr t it env.polls helapsed hret hintr
  unfold ServerSocket.acceptNextConnection
  cases hres : ServerSocket.listen env.listenEnv s with
  | mk code s1 =>
    by_cases hcode : code = ErrorCode.OK
    · subst hcode
      simp [hres, ht, hloop, ServerSocket.doAccept]
    · simp [hres, hcode]

/-- A concrete already-listening socket (descriptor 3) used in the
accept-phase witnesses. -/
def listeningSock3 : ServerSocketState :=
  { port_ := 8000, backlog_ := 10, listeningFd_ := 3, fd_ := -1, sa_ := 0,
    abortChecker_ := 0 }

/-- Witness for claim C6: prepending an interrupted iteration (elapsed
5 ms of a 100 ms budget) to a trace that then becomes ready leaves the
call's result unchanged. -/
theorem C6_witness :
    ServerSocket.acceptNextConnection
        { listenEnv := { resolution := none, listenOk := true },
          polls := PollIteration.mk 5 (-1) true ::
            [PollIteration.mk 10 1 false],
          acceptRes := 7 } 100 listeningSock3 =
      ServerSocket.acceptNextConnection
        { listenEnv := { resolution := none, listenOk := true },
          polls := [PollIteration.mk 10 1 false],
          acceptRes := 7 } 100 listeningSock3 :=
  C6_eintr_retry
    { listenEnv := { resolution := none, listenOk := true },
      polls := [PollIteration.mk 10 1 false], acceptRes := 7 }
    100 listeningSock3 (PollIteration.mk 5 (-1) true)
    (by decide) (by decide) (by decide) rfl

/-- Claim C7: when the inner `listen` has succeeded (with a positive
timeout), every accept-phase failure — the wait reporting a non-EINTR
error, exhaustion of the budget, or the `accept` syscall returning a
negative descriptor — yields `CONN_ERROR` (the non-retryable
connection error), and in each case the resulting state keeps the
strictly positive listening descriptor produced by `listen`, so a
fresh `acceptNextConnection` can be issued. -/
theorem C7_accept_phase_failures (env : AcceptEnv) (t : Int)
    (s s1 : ServerSocketState)
    (hlisten : ServerSocket.listen env.listenEnv s = (ErrorCode.OK, s1))
    (ht : 0 < t) :
    0 < s1.listeningFd_ ∧
    (acceptLoop t env.polls = some LoopOutcome.pollError →
      ServerSocket.acceptNextConnection env t s =
        some (ErrorCode.CONN_ERROR, s1)) ∧
    (acceptLoop t env.polls = some LoopOutcome.timedOut →
      ServerSocket.acceptNextConnection env t s =
        some (ErrorCode.CONN_ERROR, s1)) ∧
    (acceptLoop t env.polls = some LoopOutcome.ready →
      env.acceptRes < 0 →
      ServerSocket.acceptNextConnection env t s =
        some (ErrorCode.CONN_ERROR, { s1 with fd_ := env.acceptRes }) ∧
      0 < ({ s1 with fd_ := env.acceptRes }).listeningFd_) := by
  have hpos : 0 < s1.listeningFd_ := by
    have h2 := listen_ok_lfd_pos env.listenEnv s (by rw [hlisten])
    rw [hlisten] at h2
    exact h2
  refine ⟨hpos, ?_, ?_, ?_⟩
  · intro hloop
    unfold ServerSocket.acceptNextConnection
    simp [hlisten, ht, hloop]
  · intro hloop
    unfold ServerSocket.acceptNextConnection
    simp [hlisten, ht, hloop]
  · intro hloop hacc
    refine ⟨?_, by simpa using hpos⟩
    unfold ServerSocket.acceptNextConnection
    simp [hlisten, ht, hloop, ServerSocket.doAccept, hacc]

/-- Witness for claim C7: on the listening socket with descriptor 3, a
trace whose single `poll` iteration fails without EINTR makes the call
return `CONN_ERROR` with the state unchanged. -/
theorem C7_witness :
    ServerSocket.acceptNextConnection
        { listenEnv := { resolution := none, listenOk := true },
          polls := [PollIteration.mk 0 (-1) false],
          acceptRes := -1 } 100 listeningSock3 =
      some (ErrorCode.CONN_ERROR, listeningSock3) :=
  (C7_accept_phase_failures
      { listenEnv := { resolution := none, listenOk := true },
        polls := [PollIteration.mk 0 (-1) false], acceptRes := -1 }
      100 listeningSock3 listeningSock3 (by decide) (by decide)).2.1
    (by decide)

/-! ### Claim C8: closeCurrentConnection frame -/

/-- Claim C8: `closeCurrentConnection` never changes the listening
descriptor, the port or the backlog; when a connection is active
(`fd_ >= 0`) it returns the close syscall's result and resets only
`fd_` to -1; when none is active it changes nothing and returns 0. -/
theorem C8_closeCurrentConnection_frame (s : ServerSocketState)
    (closeRes : Int) :
    (ServerSocket.closeCurrentConnection closeRes s).2.listeningFd_ =
      s.listeningFd_ ∧
    (ServerSocket.closeCurrentConnection closeRes s).2.port_ = s.port_ ∧
    (ServerSocket.closeCurrentConnection closeRes s).2.backlog_ =
      s.backlog_ ∧
    (0 ≤ s.fd_ →
      ServerSocket.closeCurrentConnection closeRes s =
        (closeRes, { s with fd_ := -1 })) ∧
    (s.fd_ < 0 →
      ServerSocket.closeCurrentConnection closeRes s = (0, s)) := by
  unfold ServerSocket.closeCurrentConnection
  by_cases h : 0 ≤ s.fd_
  · exact ⟨by simp [h], by simp [h], by simp [h], fun _ => by simp [h],
      fun hlt => absurd h (not_le.mpr hlt)⟩
  · exact ⟨by simp [h], by simp [h], by simp [h],
      fun hle => absurd hle h, fun _ => by simp [h]⟩

/-- Witness for claim C8: closing the active connection 4 of a
listening socket resets only `fd_`, leaving descriptor 3 and port 8000
in place. -/
theorem C8_witness :
    ServerSocket.closeCurrentConnection 0
        { port_ := 8000, backlog_ := 10, listeningFd_ := 3, fd_ := 4,
          sa_ := 0, abortChecker_ := 0 } =
      (0, { port_ := 8000, backlog_ := 10, listeningFd_ := 3, fd_ := -1,
            sa_ := 0, abortChecker_ := 0 }) :=
  (C8_closeCurrentConnection_frame
      { port_ := 8000, backlog_ := 10, listeningFd_ := 3, fd_ := 4,
        sa_ := 0, abortChecker_ := 0 } 0).2.2.2.1 (by decide)

/-! ### Claim C9: closeAll idempotence -/

/-- Claim C9: `closeAll` leaves both descriptors at -1 (for every
state whose descriptor fields hold values the program can store, i.e.
at least -1), and from every state whatsoever a second call closes
nothing (its list of close syscalls is empty) and leaves the state
exactly as the first call left it; the function returns no error value
at all, so close failures cannot propagate. -/
theorem C9_closeAll_idempotent (s : ServerSocketState) :
    (-1 ≤ s.fd_ → (ServerSocket.closeAll s).1.fd_ = -1) ∧
    (-1 ≤ s.listeningFd_ →
      (ServerSocket.closeAll s).1.listeningFd_ = -1) ∧
    ServerSocket.closeAll (ServerSocket.closeAll s).1 =
      ((ServerSocket.closeAll s).1, []) := by
  refine ⟨?_, ?_, ?_⟩
  · intro h
    unfold ServerSocket.closeAll
    by_cases h1 : 0 ≤ s.fd_ <;> by_cases h2 : 0 ≤ s.listeningFd_
    · simp [h1, h2]
    · simp [h1, h2]
    · have hm : s.fd_ = -1 := by omega
      simp [h1, h2, hm]
    · have hm : s.fd_ = -1 := by omega
      simp [h1, h2, hm]
  · intro h
    unfold ServerSocket.closeAll
    by_cases h1 : 0 ≤ s.fd_ <;> by_cases h2 : 0 ≤ s.listeningFd_
    · simp [h1, h2]
    · have hm : s.listeningFd_ = -1 := by omega
      simp [h1, h2, hm]
    · simp [h1, h2]
    · have hm : s.listeningFd_ = -1 := by omega
      simp [h1, h2, hm]
  · unfold ServerSocket.closeAll
    by_cases h1 : 0 ≤ s.fd_ <;> by_cases h2 : 0 ≤ s.listeningFd_ <;>
      simp [h1, h2]

/-- Witness for claim C9: tearing down a socket with listening
descriptor 3 and connection descriptor 4 leaves both fields at -1. -/
theorem C9_witness :
    (ServerSocket.closeAll
        { port_ := 8000, backlog_ := 10, listeningFd_ := 3, fd_ := 4,
          sa_ := 0, abortChecker_ := 0 }).1.fd_ = -1 ∧
    (ServerSocket.closeAll
        { port_ := 8000, backlog_ := 10, listeningFd_ := 3, fd_ := 4,
          sa_ := 0, abortChecker_ := 0 }).1.listeningFd_ = -1 :=
  ⟨(C9_closeAll_idempotent
      { port_ := 8000, backlog_ := 10, listeningFd_ := 3, fd_ := 4,
        sa_ := 0, abortChecker_ := 0 }).1 (by decide),
   (C9_closeAll_idempotent
      { port_ := 8000, backlog_ := 10, listeningFd_ := 3, fd_ := 4,
        sa_ := 0, abortChecker_ := 0 }).2.1 (by decide)⟩

/-! ### Claim C10: read and write forward without checks or mutation -/

/-- Claim C10: `read` and `write` forward the current connection
descriptor, buffer, length, abort checker and full-transfer flag
unchanged to the byte-transfer collaborator and return its result,
for every state (including `fd_ = -1`) and every collaborator, leaving
the state — port, backlog and both descriptors — exactly as it was. -/
theorem C10_read_write_forward
    (readImpl writeImpl : Int → Nat → Int → Nat → Bool → Int)
    (buf : Nat) (nbyte : Int) (tryFull : Bool) (s : ServerSocketState) :
    ServerSocket.read readImpl buf nbyte tryFull s =
      (readImpl s.fd_ buf nbyte s.abortChecker_ tryFull, s) ∧
    ServerSocket.write writeImpl buf nbyte tryFull s =
      (writeImpl s.fd_ buf nbyte s.abortChecker_ tryFull, s) :=
  ⟨rfl, rfl⟩
